import Mathlib

/-!
A shallow embedding of the product-catalog HTTP API implemented in
`src/01_api/index.js` (an Express + MySQL CRUD service), together with
theorems checking the natural-language specification of the repository
against this embedding.

Conventions of the embedding:
* JavaScript `undefined`/`null` string values are `Option String` with `none`;
  JS string truthiness (`if (s)`) is `truthy` below (empty string is falsy).
* Machine numbers are `ℕ`/`ℤ`/`ℚ`; `parseInt`/`parseFloat` are modelled by
  `jsParseInt`/`jsParseFloat` (decimal forms; `none` stands for `NaN`).
* The database is out of scope (external collaborator); SQL text and bound
  parameter lists are modelled syntactically, exactly as the handler
  concatenates them.  MySQL `LIKE` under the default case-insensitive
  collation is modelled by `likeMatch`/`sqlLikeCI` for escape-free patterns.
-/

namespace ProductApi

/-- JS truthiness of an optional string value: `undefined`, `null` and the
empty string are falsy, every other string is truthy. -/
def truthy : Option String → Bool
  | none => false
  | some s => if s = "" then false else true

/-- A value bound to a `?` placeholder of a query: either a raw string, or
the result of JS `parseFloat` on a string (`none` standing for `NaN`). -/
inductive SqlParam where
  | str (s : String)
  | float (x : Option ℚ)
  deriving DecidableEq

/-- Numeric value of a decimal digit character. -/
def digitVal (c : Char) : ℕ := c.toNat - '0'.toNat

/-- Value of a list of decimal digit characters, most significant first. -/
def digitsToNat (l : List Char) : ℕ := l.foldl (fun a c => a * 10 + digitVal c) 0

/-- Leading decimal-digit block of a character list, as a number;
`none` when there is no leading digit. -/
def leadingDigits (l : List Char) : Option ℕ :=
  let ds := l.takeWhile Char.isDigit
  if ds.isEmpty then none else some (digitsToNat ds)

/-- Model of JS `parseInt` on an optional string (decimal inputs):
skip leading whitespace, optional sign, then a leading digit block;
`none` models `NaN` (no digits, or the value was `undefined`). -/
def jsParseInt : Option String → Option ℤ
  | none => none
  | some s =>
    let l := s.data.dropWhile Char.isWhitespace
    match l with
    | '-' :: r => (leadingDigits r).map (fun n => -(n : ℤ))
    | '+' :: r => (leadingDigits r).map (fun n => (n : ℤ))
    | r => (leadingDigits r).map (fun n => (n : ℤ))

/-- Model of JS `parseFloat` on a string (decimal forms `[±]digits[.digits]`):
skip leading whitespace, optional sign, integer part, optional fraction;
`none` models `NaN`. -/
def jsParseFloat (s : String) : Option ℚ :=
  let l := s.data.dropWhile Char.isWhitespace
  let sgn : ℚ × List Char :=
    match l with
    | '-' :: r => (-1, r)
    | '+' :: r => (1, r)
    | r => (1, r)
  let ip := sgn.2.takeWhile Char.isDigit
  let l3 := sgn.2.dropWhile Char.isDigit
  let fp :=
    match l3 with
    | '.' :: r => r.takeWhile Char.isDigit
    | _ => []
  if ip.isEmpty && fp.isEmpty then none
  else some (sgn.1 * ((digitsToNat ip : ℚ) + (digitsToNat fp : ℚ) / (10 : ℚ) ^ fp.length))

/-- `parseFloat` applied to an optional string (`parseFloat(undefined)` is `NaN`). -/
def jsParseFloatO : Option String → Option ℚ
  | none => none
  | some s => jsParseFloat s

/-- The pair of query texts and bound-parameter lists built by the
`GET /products` handler. -/
structure QueryState where
  query : String
  countQuery : String
  params : List SqlParam
  countParams : List SqlParam

/-- Initial text of the data query. -/
def listBase : String := "SELECT * FROM products WHERE 1=1"

/-- Initial text of the count query. -/
def countBase : String := "SELECT COUNT(*) as total FROM products WHERE 1=1"

/-- The `if (search)` block of the `GET /products` handler: append the
search clause to both query texts and push the wildcard-wrapped term onto
both parameter lists. -/
def searchStep (search : Option String) (st : QueryState) : QueryState :=
  if truthy search then
    let searchTerm := "%" ++ search.getD "" ++ "%"
    { query := st.query ++ " AND (name LIKE ? OR description LIKE ?)"
      countQuery := st.countQuery ++ " AND (name LIKE ? OR description LIKE ?)"
      params := st.params ++ [SqlParam.str searchTerm, SqlParam.str searchTerm]
      countParams := st.countParams ++ [SqlParam.str searchTerm, SqlParam.str searchTerm] }
  else st

/-- The `if (category)` block of the `GET /products` handler. -/
def categoryStep (category : Option String) (st : QueryState) : QueryState :=
  if truthy category then
    { query := st.query ++ " AND category = ?"
      countQuery := st.countQuery ++ " AND category = ?"
      params := st.params ++ [SqlParam.str (category.getD "")]
      countParams := st.countParams ++ [SqlParam.str (category.getD "")] }
  else st

/-- The `if (minPrice)` block of the `GET /products` handler. -/
def minPriceStep (minPrice : Option String) (st : QueryState) : QueryState :=
  if truthy minPrice then
    { query := st.query ++ " AND price >= ?"
      countQuery := st.countQuery ++ " AND price >= ?"
      params := st.params ++ [SqlParam.float (jsParseFloat (minPrice.getD ""))]
      countParams := st.countParams ++ [SqlParam.float (jsParseFloat (minPrice.getD ""))] }
  else st

/-- The `if (maxPrice)` block of the `GET /products` handler. -/
def maxPriceStep (maxPrice : Option String) (st : QueryState) : QueryState :=
  if truthy maxPrice then
    { query := st.query ++ " AND price <= ?"
      countQuery := st.countQuery ++ " AND price <= ?"
      params := st.params ++ [SqlParam.float (jsParseFloat (maxPrice.getD ""))]
      countParams := st.countParams ++ [SqlParam.float (jsParseFloat (maxPrice.getD ""))] }
  else st

/-- The dynamic WHERE-clause assembly of the `GET /products` handler
(src/01_api/index.js lines 82–114): starting from the two base query texts
and empty parameter lists, the four `if` blocks run in source order. -/
def buildListQuery (search category minPrice maxPrice : Option String) : QueryState :=
  maxPriceStep maxPrice (minPriceStep minPrice (categoryStep category (searchStep search
    { query := listBase, countQuery := countBase, params := [], countParams := [] })))

/-- The predicate set as the specification describes it: one clause with its
ordered bound parameters for each supplied filter parameter, none for an
absent one. -/
def specClauses (search category minPrice maxPrice : Option String) :
    List (String × List SqlParam) :=
  (if truthy search then
    [("(name LIKE ? OR description LIKE ?)",
      [SqlParam.str ("%" ++ search.getD "" ++ "%"),
       SqlParam.str ("%" ++ search.getD "" ++ "%")])]
   else []) ++
  (if truthy category then [("category = ?", [SqlParam.str (category.getD "")])] else []) ++
  (if truthy minPrice then
    [("price >= ?", [SqlParam.float (jsParseFloat (minPrice.getD ""))])] else []) ++
  (if truthy maxPrice then
    [("price <= ?", [SqlParam.float (jsParseFloat (maxPrice.getD ""))])] else [])

/-- Conjoin clauses: each clause is appended after an ` AND `. -/
def andJoin : List String → String
  | [] => ""
  | c :: cs => " AND " ++ c ++ andJoin cs

/-- Number of `?` placeholders in a piece of query text. -/
def numPlaceholders (s : String) : ℕ := s.data.count '?'

/-- Page number after applying the handler's default (`page = 1`). -/
def effectivePage (page : Option ℕ) : ℕ := page.getD 1

/-- Page size after applying the handler's default (`limit = 20`);
the handler imposes no upper bound. -/
def effectiveLimit (limit : Option ℕ) : ℕ := limit.getD 20

/-- The pagination offset `(page - 1) * limit` computed by the handler,
in JS signed arithmetic. -/
def listOffset (page limit : Option ℕ) : ℤ :=
  ((effectivePage page : ℤ) - 1) * (effectiveLimit limit : ℤ)

/-- The `Math.ceil(total / limit)` computation of the response's
`pagination.totalPages` field, for numeric inputs. -/
def totalPagesJs (total limit : ℕ) : ℤ := ⌈(total : ℚ) / (limit : ℚ)⌉

/-- JS `s.startsWith(pre)`: `pre` is a prefix of `s`. -/
def jsStartsWith (s pre : String) : Bool := pre.data.isPrefixOf s.data

/-- JS `s.trim()`: strip whitespace from both ends of the string. -/
def jsTrim (s : String) : String :=
  ⟨((s.data.dropWhile Char.isWhitespace).reverse.dropWhile Char.isWhitespace).reverse⟩

/-- The `getImageUrl` helper (src/01_api/index.js lines 47–63): `null` for a
falsy stored reference, the reference unchanged when it already starts with
`http://` or `https://`, a synthesized `protocol://host` + path when it
starts with `/uploads/`, and the reference unchanged otherwise.  The
request's scheme and host are passed in as the two string arguments. -/
def getImageUrl (imageUrl : Option String) (protocol host : String) : Option String :=
  match imageUrl with
  | none => none
  | some s =>
    if s = "" then none
    else if jsStartsWith s "http://" || jsStartsWith s "https://" then some s
    else if jsStartsWith s "/uploads/" then some (protocol ++ "://" ++ host ++ s)
    else some s

/-- Image-reference resolution shared by the create and update handlers
(src/01_api/index.js lines 171–177 and 209–215): an uploaded file wins,
otherwise a supplied URL that is truthy and trims to a nonempty string is
used trimmed, otherwise the fallback — `null` on create, the previously
stored reference on update. -/
def resolveImageUrl (file : Option String) (imageUrl : Option String)
    (fallback : Option String) : Option String :=
  match file with
  | some f => some ("/uploads/" ++ f)
  | none =>
    match imageUrl with
    | none => fallback
    | some u =>
      if u = "" then fallback
      else if jsTrim u = "" then fallback
      else some (jsTrim u)

/-- The `catch` block of the `POST /products` handler (src/01_api/index.js
lines 192–198): a MySQL duplicate-key error is mapped to HTTP 400 with a
slug-specific message, every other error to a generic HTTP 500. -/
def createErrorResponse (code : String) : ℕ × String :=
  if code = "ER_DUP_ENTRY" then (400, "Product slug already exists")
  else (500, "Failed to create product")

/-- The `catch` block of the `PUT /products/:id` handler (src/01_api/index.js
lines 230–233): every error, whatever its code, is mapped to the generic
HTTP 500 response. -/
def updateErrorResponse (_code : String) : ℕ × String :=
  (500, "Failed to update product")

/-- The destructured request body of the create and update handlers; each
field is a string or absent. -/
structure RequestBody where
  name : Option String
  slug : Option String
  description : Option String
  price : Option String
  category : Option String
  stock : Option String
  imageUrl : Option String

/-- A stored product row, with the fields in the order the INSERT/UPDATE
statements bind them; `price` is the `parseFloat` result (`none` = `NaN`),
`stock` the `parseInt(stock) || 0` result. -/
structure ProductRow where
  name : Option String
  slug : Option String
  description : Option String
  price : Option ℚ
  category : Option String
  stock : ℤ
  imageUrl : Option String
  deriving DecidableEq

/-- JS `description || null`: absent and empty strings collapse to `null`. -/
def jsOrNull : Option String → Option String
  | none => none
  | some d => if d = "" then none else some d

/-- JS `parseInt(stock) || 0`: `NaN` (and `0` itself) collapse to `0`. -/
def jsParseIntOr0 (s : Option String) : ℤ :=
  match jsParseInt s with
  | none => 0
  | some n => n

/-- The row bound by the INSERT statement of `POST /products`
(src/01_api/index.js lines 179–182). -/
def insertRow (b : RequestBody) (file : Option String) : ProductRow :=
  { name := b.name
    slug := b.slug
    description := jsOrNull b.description
    price := jsParseFloatO b.price
    category := b.category
    stock := jsParseIntOr0 b.stock
    imageUrl := resolveImageUrl file b.imageUrl none }

/-- The validation-then-insert decision of the `POST /products` handler
(src/01_api/index.js lines 163–182): reject with the 400 message when any
of name, slug, price, category is falsy, otherwise build the insert row. -/
def createStep (b : RequestBody) (file : Option String) : Except String ProductRow :=
  if !truthy b.name || !truthy b.slug || !truthy b.price || !truthy b.category then
    Except.error "Missing required fields"
  else
    Except.ok (insertRow b file)

/-- The create handler acting on the stored table (modelled as a row list):
validation failure answers 400 and leaves the table unchanged, success
answers 201 and appends the new row. -/
def runCreate (db : List ProductRow) (b : RequestBody) (file : Option String) :
    ℕ × List ProductRow :=
  match createStep b file with
  | Except.error _ => (400, db)
  | Except.ok r => (201, db ++ [r])

/-- Outcome of the `PUT /products/:id` handler's decision logic. -/
inductive UpdateOutcome where
  | badRequest (message : String)
  | notFound
  | updated (row : ProductRow)
  deriving DecidableEq

/-- The row bound by the UPDATE statement of `PUT /products/:id`
(src/01_api/index.js lines 217–220): every column is overwritten from the
request body except the image reference, which falls back to the
previously stored one. -/
def updateRowFn (b : RequestBody) (file : Option String) (prior : ProductRow) : ProductRow :=
  { name := b.name
    slug := b.slug
    description := jsOrNull b.description
    price := jsParseFloatO b.price
    category := b.category
    stock := jsParseIntOr0 b.stock
    imageUrl := resolveImageUrl file b.imageUrl prior.imageUrl }

/-- The decision logic of the `PUT /products/:id` handler
(src/01_api/index.js lines 202–220): 404 when the row does not exist,
otherwise overwrite it — there is no validation branch. -/
def updateStep (prior : Option ProductRow) (b : RequestBody) (file : Option String) :
    UpdateOutcome :=
  match prior with
  | none => UpdateOutcome.notFound
  | some p => UpdateOutcome.updated (updateRowFn b file p)

/-- SQL LIKE pattern matching over character lists, for escape-free
patterns: `%` matches any run of characters, `_` any single character,
any other pattern character only itself. -/
def likeMatch (p s : List Char) : Bool :=
  match p with
  | [] => s.isEmpty
  | p1 :: ps =>
    if p1 = '%' then
      likeMatch ps s ||
        (match s with
         | [] => false
         | _ :: s2 => likeMatch (p1 :: ps) s2)
    else
      match s with
      | [] => false
      | c :: s2 =>
        if p1 = '_' then likeMatch ps s2
        else if p1 = c then likeMatch ps s2 else false
termination_by (s.length, p.length)

/-- Modelled from the spec: evaluation of `value LIKE pattern` by the
out-of-scope MySQL engine under its default case-insensitive collation —
both sides are compared lower-cased (src/ binds the pattern; the engine
evaluating LIKE is external to the repository). -/
def sqlLikeCI (v pattern : String) : Bool :=
  likeMatch (pattern.data.map Char.toLower) (v.data.map Char.toLower)

end ProductApi

namespace ProductApi

/-- The refinement invariant tying a `QueryState` to a predicate-clause
list: both query texts are the base text followed by the AND-joined
clauses, the data parameters are the clause parameters in order, and the
count parameters are identical to the data parameters. -/
def QueryInv (st : QueryState) (cl : List (String × List SqlParam)) : Prop :=
  st.query = listBase ++ andJoin (cl.map Prod.fst) ∧
  st.countQuery = countBase ++ andJoin (cl.map Prod.fst) ∧
  st.params = (cl.map Prod.snd).flatten ∧
  st.countParams = st.params

lemma andJoin_append (a b : List String) : andJoin (a ++ b) = andJoin a ++ andJoin b := by
  induction a with
  | nil => simp [andJoin]
  | cons c cs ih => simp [andJoin, ih, String.append_assoc]

lemma appendClause_inv (st : QueryState) (cl : List (String × List SqlParam))
    (h : QueryInv st cl) (lit clause : String) (ps : List SqlParam)
    (hlit : lit = " AND " ++ clause) :
    QueryInv
      { query := st.query ++ lit, countQuery := st.countQuery ++ lit,
        params := st.params ++ ps, countParams := st.countParams ++ ps }
      (cl ++ [(clause, ps)]) := by
  obtain ⟨h1, h2, h3, h4⟩ := h
  subst hlit
  refine ⟨?_, ?_, ?_, ?_⟩ <;>
    simp [h1, h2, h3, h4, QueryInv, List.map_append, andJoin_append, andJoin,
      String.append_empty, String.append_assoc]

lemma searchStep_inv (search : Option String) (st : QueryState)
    (cl : List (String × List SqlParam)) (h : QueryInv st cl) :
    QueryInv (searchStep search st)
      (cl ++ (if truthy search then
        [("(name LIKE ? OR description LIKE ?)",
          [SqlParam.str ("%" ++ search.getD "" ++ "%"),
           SqlParam.str ("%" ++ search.getD "" ++ "%")])] else [])) := by
  cases ht : truthy search with
  | false => simpa [searchStep, ht] using h
  | true =>
    have hs := appendClause_inv st cl h " AND (name LIKE ? OR description LIKE ?)"
      "(name LIKE ? OR description LIKE ?)"
      [SqlParam.str ("%" ++ search.getD "" ++ "%"),
       SqlParam.str ("%" ++ search.getD "" ++ "%")] rfl
    simpa [searchStep, ht] using hs

lemma categoryStep_inv (category : Option String) (st : QueryState)
    (cl : List (String × List SqlParam)) (h : QueryInv st cl) :
    QueryInv (categoryStep category st)
      (cl ++ (if truthy category then
        [("category = ?", [SqlParam.str (category.getD "")])] else [])) := by
  cases ht : truthy category with
  | false => simpa [categoryStep, ht] using h
  | true =>
    have hs := appendClause_inv st cl h " AND category = ?" "category = ?"
      [SqlParam.str (category.getD "")] rfl
    simpa [categoryStep, ht] using hs

lemma minPriceStep_inv (minPrice : Option String) (st : QueryState)
    (cl : List (String × List SqlParam)) (h : QueryInv st cl) :
    QueryInv (minPriceStep minPrice st)
      (cl ++ (if truthy minPrice then
        [("price >= ?", [SqlParam.float (jsParseFloat (minPrice.getD ""))])] else [])) := by
  cases ht : truthy minPrice with
  | false => simpa [minPriceStep, ht] using h
  | true =>
    have hs := appendClause_inv st cl h " AND price >= ?" "price >= ?"
      [SqlParam.float (jsParseFloat (minPrice.getD ""))] rfl
    simpa [minPriceStep, ht] using hs

lemma maxPriceStep_inv (maxPrice : Option String) (st : QueryState)
    (cl : List (String × List SqlParam)) (h : QueryInv st cl) :
    QueryInv (maxPriceStep maxPrice st)
      (cl ++ (if truthy maxPrice then
        [("price <= ?", [SqlParam.float (jsParseFloat (maxPrice.getD ""))])] else [])) := by
  cases ht : truthy maxPrice with
  | false => simpa [maxPriceStep, ht] using h
  | true =>
    have hs := appendClause_inv st cl h " AND price <= ?" "price <= ?"
      [SqlParam.float (jsParseFloat (maxPrice.getD ""))] rfl
    simpa [maxPriceStep, ht] using hs

lemma buildListQuery_inv (search category minPrice maxPrice : Option String) :
    QueryInv (buildListQuery search category minPrice maxPrice)
      (specClauses search category minPrice maxPrice) := by
  have i0 : QueryInv
      { query := listBase, countQuery := countBase, params := [], countParams := [] } [] := by
    refine ⟨?_, ?_, rfl, rfl⟩ <;> simp [andJoin, String.append_empty]
  exact maxPriceStep_inv maxPrice _ _
    (minPriceStep_inv minPrice _ _ (categoryStep_inv category _ _
      (searchStep_inv search _ _ i0)))

lemma mem_specClauses (search category minPrice maxPrice : Option String)
    (c : String × List SqlParam)
    (h : c ∈ specClauses search category minPrice maxPrice) :
    c = ("(name LIKE ? OR description LIKE ?)",
          [SqlParam.str ("%" ++ search.getD "" ++ "%"),
           SqlParam.str ("%" ++ search.getD "" ++ "%")]) ∨
    c = ("category = ?", [SqlParam.str (category.getD "")]) ∨
    c = ("price >= ?", [SqlParam.float (jsParseFloat (minPrice.getD ""))]) ∨
    c = ("price <= ?", [SqlParam.float (jsParseFloat (maxPrice.getD ""))]) := by
  simp only [specClauses, List.mem_append] at h
  rcases h with (((h | h) | h) | h)
  · left
    split at h <;> simp_all
  · right; left
    split at h <;> simp_all
  · right; right; left
    split at h <;> simp_all
  · right; right; right
    split at h <;> simp_all

/-- C1: for every combination of the optional `search`, `category`,
`minPrice`, `maxPrice` parameters, the data query and the count query are
built from the identical predicate set — one AND-conjoined clause per
supplied parameter, none for an absent one — the two bound-parameter lists
are equal, and each clause carries exactly as many placeholders as
parameters bound for it, in order. -/
theorem c1_list_and_count_queries_agree (search category minPrice maxPrice : Option String) :
    (buildListQuery search category minPrice maxPrice).query =
      listBase ++ andJoin ((specClauses search category minPrice maxPrice).map Prod.fst) ∧
    (buildListQuery search category minPrice maxPrice).countQuery =
      countBase ++ andJoin ((specClauses search category minPrice maxPrice).map Prod.fst) ∧
    (buildListQuery search category minPrice maxPrice).params =
      ((specClauses search category minPrice maxPrice).map Prod.snd).flatten ∧
    (buildListQuery search category minPrice maxPrice).countParams =
      (buildListQuery search category minPrice maxPrice).params ∧
    (specClauses search category minPrice maxPrice).length =
      ((if truthy search then 1 else 0) + (if truthy category then 1 else 0) +
        (if truthy minPrice then 1 else 0) + (if truthy maxPrice then 1 else 0)) ∧
    (∀ c ∈ specClauses search category minPrice maxPrice,
      numPlaceholders c.1 = c.2.length) := by
  obtain ⟨h1, h2, h3, h4⟩ := buildListQuery_inv search category minPrice maxPrice
  refine ⟨h1, h2, h3, h4, ?_, ?_⟩
  · cases hs : truthy search <;> cases hc : truthy category <;>
      cases hm : truthy minPrice <;> cases hM : truthy maxPrice <;>
        simp [specClauses, hs, hc, hm, hM]
  · intro c hcm
    rcases mem_specClauses search category minPrice maxPrice c hcm with
      rfl | rfl | rfl | rfl
    · exact (by decide : numPlaceholders "(name LIKE ? OR description LIKE ?)" = 2)
    · exact (by decide : numPlaceholders "category = ?" = 1)
    · exact (by decide : numPlaceholders "price >= ?" = 1)
    · exact (by decide : numPlaceholders "price <= ?" = 1)

/-- C2: the returned `pagination.totalPages` equals `⌈total / limit⌉`
(computed here as the exact natural-number ceiling division
`(total + limit - 1) / limit`), and equals `0` when `total = 0`. -/
theorem c2_total_pages_is_ceil (total limit : ℕ) (h : 0 < limit) :
    totalPagesJs total limit = ((total + limit - 1) / limit : ℕ) ∧
    (total = 0 → totalPagesJs total limit = 0) := by
  have key : totalPagesJs total limit = ((total + limit - 1) / limit : ℕ) := by
    unfold totalPagesJs
    rw [Int.ceil_eq_iff]
    have hL : (0:ℚ) < (limit : ℚ) := by exact_mod_cast h
    have hd := Nat.div_add_mod (total + limit - 1) limit
    have hmlt : (total + limit - 1) % limit < limit := Nat.mod_lt _ h
    set n := (total + limit - 1) / limit with hn
    set r := (total + limit - 1) % limit with hr
    have h2 : limit * n < total + limit := by omega
    have h3 : total ≤ limit * n := by omega
    have hq2 : ((limit : ℚ)) * n < total + limit := by exact_mod_cast h2
    have hq3 : ((total : ℚ)) ≤ limit * n := by exact_mod_cast h3
    constructor
    · rw [lt_div_iff₀ hL]
      push_cast
      nlinarith [hq2]
    · rw [div_le_iff₀ hL]
      push_cast
      nlinarith [hq3]
  refine ⟨key, fun h0 => ?_⟩
  subst h0
  rw [key, Nat.div_eq_of_lt (by omega : 0 + limit - 1 < limit)]
  simp

/-- Witness for C2 at concrete inputs: five matching rows with page size two
give three pages, and zero matching rows give zero pages. -/
theorem c2_total_pages_is_ceil_witness :
    totalPagesJs 5 2 = 3 ∧ totalPagesJs 0 7 = 0 := by
  constructor
  · have := (c2_total_pages_is_ceil 5 2 (by decide)).1
    simpa using this
  · exact (c2_total_pages_is_ceil 0 7 (by decide)).2 rfl

/-- C3: the pagination offset is `(page - 1) * limit` — in particular `0`
for `page = 1` — `page` defaults to `1`, `limit` defaults to `20`, and a
supplied `limit` is used as is, with no upper bound imposed. -/
theorem c3_offset_and_defaults :
    (∀ N L : ℕ, listOffset (some N) (some L) = ((N : ℤ) - 1) * (L : ℤ)) ∧
    (∀ L : ℕ, listOffset (some 1) (some L) = 0) ∧
    effectivePage none = 1 ∧
    effectiveLimit none = 20 ∧
    (∀ L : ℕ, effectiveLimit (some L) = L) := by
  refine ⟨fun N L => rfl, fun L => ?_, rfl, rfl, fun L => rfl⟩
  simp [listOffset, effectivePage, effectiveLimit]

lemma isPrefixOf_head_ne {a b : Char} {as bs l : List Char} (hab : a ≠ b)
    (h : (a :: as).isPrefixOf l = true) : (b :: bs).isPrefixOf l = false := by
  cases l with
  | nil => simp [List.isPrefixOf] at h
  | cons c t =>
    simp only [List.isPrefixOf, Bool.and_eq_true, beq_iff_eq] at h
    simp only [List.isPrefixOf, Bool.and_eq_false_iff, beq_eq_false_iff_ne]
    exact Or.inl (fun hbc => hab (h.1.trans hbc.symm))

lemma uploads_not_http (s : String) (h : jsStartsWith s "/uploads/" = true) :
    jsStartsWith s "http://" = false ∧ jsStartsWith s "https://" = false := by
  unfold jsStartsWith at h ⊢
  have e1 : "/uploads/".data = '/' :: "uploads/".data := rfl
  have e2 : "http://".data = 'h' :: "ttp://".data := rfl
  have e3 : "https://".data = 'h' :: "ttps://".data := rfl
  rw [e1] at h
  rw [e2, e3]
  exact ⟨isPrefixOf_head_ne (by decide) h, isPrefixOf_head_ne (by decide) h⟩

/-- C4: the image URL normalizer returns `null` when no reference is
stored, returns a reference that already begins with `http://` or
`https://` unchanged for any request scheme and host, and synthesizes
`scheme://host` + path for a stored relative upload path.  As a Lean
function of exactly these inputs it is pure by construction. -/
theorem c4_get_image_url_contract (protocol host : String) :
    getImageUrl none protocol host = none ∧
    (∀ s : String, (jsStartsWith s "http://" || jsStartsWith s "https://") = true →
      getImageUrl (some s) protocol host = some s) ∧
    (∀ s : String, jsStartsWith s "/uploads/" = true →
      getImageUrl (some s) protocol host = some (protocol ++ "://" ++ host ++ s)) := by
  refine ⟨rfl, ?_, ?_⟩
  · intro s h
    by_cases hse : s = ""
    · subst hse; exact absurd h (by decide)
    · simp [getImageUrl, hse, h]
  · intro s h
    obtain ⟨h1, h2⟩ := uploads_not_http s h
    by_cases hse : s = ""
    · subst hse; exact absurd h (by decide)
    · simp [getImageUrl, hse, h, h1, h2]

/-- Witness for C4: a stored `/uploads/` path is turned into an absolute
URL using the request's scheme and host. -/
theorem c4_get_image_url_contract_witness :
    getImageUrl (some "/uploads/img.png") "https" "shop.example" =
      some "https://shop.example/uploads/img.png" :=
  ((c4_get_image_url_contract "https" "shop.example").2.2 "/uploads/img.png"
    (by decide)).trans (by decide)

/-- C9: a non-empty stored reference that begins with none of `http://`,
`https://`, `/uploads/` falls through the normalizer unchanged. -/
theorem c9_fallthrough_returns_unchanged (s protocol host : String) (h0 : s ≠ "")
    (h1 : jsStartsWith s "http://" = false) (h2 : jsStartsWith s "https://" = false)
    (h3 : jsStartsWith s "/uploads/" = false) :
    getImageUrl (some s) protocol host = some s := by
  simp [getImageUrl, h0, h1, h2, h3]

/-- Witness for C9: a bare relative path without the uploads prefix is
returned as stored. -/
theorem c9_fallthrough_returns_unchanged_witness :
    getImageUrl (some "images/logo.png") "http" "localhost:3001" = some "images/logo.png" :=
  c9_fallthrough_returns_unchanged "images/logo.png" "http" "localhost:3001"
    (by decide) (by decide) (by decide) (by decide)

/-- C5: image-reference resolution priority — an uploaded file always wins
and produces a path under `/uploads/`; otherwise a supplied URL string
with nonempty trim is used trimmed; otherwise the fallback is returned
exactly (the previously stored reference on update, `null` on create),
also when the supplied URL trims to empty. -/
theorem c5_image_resolution_priority :
    (∀ (f : String) (imageUrl fallback : Option String),
      resolveImageUrl (some f) imageUrl fallback = some ("/uploads/" ++ f)) ∧
    (∀ (u : String) (fallback : Option String), jsTrim u ≠ "" →
      resolveImageUrl none (some u) fallback = some (jsTrim u)) ∧
    (∀ fallback : Option String, resolveImageUrl none none fallback = fallback) ∧
    (∀ (u : String) (fallback : Option String), jsTrim u = "" →
      resolveImageUrl none (some u) fallback = fallback) := by
  refine ⟨fun f iu fb => rfl, ?_, fun fb => rfl, ?_⟩
  · intro u fb h
    have hu : u ≠ "" := by
      intro he
      subst he
      exact h (by decide)
    simp [resolveImageUrl, hu, h]
  · intro u fb h
    by_cases hu : u = ""
    · subst hu
      simp [resolveImageUrl]
    · simp [resolveImageUrl, hu, h]

/-- Witness for C5: with no uploaded file, a padded URL string is stored
trimmed, overriding the stored fallback. -/
theorem c5_image_resolution_priority_witness :
    resolveImageUrl none (some "  pic.png  ") (some "/uploads/old.png") = some "pic.png" :=
  (c5_image_resolution_priority.2.1 "  pic.png  " (some "/uploads/old.png")
    (by decide)).trans (by decide)

/-- Counterexample to C6: on the update path a duplicate-key storage error
(code `ER_DUP_ENTRY`) is answered with the generic HTTP 500 response, not
with a 400 duplicate-slug error. -/
theorem c6_update_duplicate_not_distinguished :
    updateErrorResponse "ER_DUP_ENTRY" = (500, "Failed to update product") ∧
    (updateErrorResponse "ER_DUP_ENTRY").1 ≠ 400 := by
  exact ⟨rfl, by decide⟩

/-- C6 as amended: a slug-uniqueness violation surfaces as a
distinguishable HTTP 400 duplicate-slug error on the insert path only;
every other insert error, and every update error including a duplicate
slug, surfaces as the generic HTTP 500 failure. -/
theorem c6_duplicate_slug_error_amended :
    createErrorResponse "ER_DUP_ENTRY" = (400, "Product slug already exists") ∧
    (∀ code : String, code ≠ "ER_DUP_ENTRY" →
      createErrorResponse code = (500, "Failed to create product")) ∧
    (∀ code : String, updateErrorResponse code = (500, "Failed to update product")) := by
  refine ⟨rfl, ?_, fun c => rfl⟩
  intro code hc
  simp [createErrorResponse, hc]

/-- Witness for the amended C6: a non-duplicate error code on the insert
path maps to the generic failure. -/
theorem c6_duplicate_slug_error_amended_witness :
    createErrorResponse "ETIMEDOUT" = (500, "Failed to create product") :=
  c6_duplicate_slug_error_amended.2.1 "ETIMEDOUT" (by decide)

/-- C7: a create request missing any of name, slug, price or category is
answered with the 400 validation response and the stored table is left
unchanged — no insert happens. -/
theorem c7_create_missing_required_field (db : List ProductRow) (b : RequestBody)
    (file : Option String)
    (h : b.name = none ∨ b.slug = none ∨ b.price = none ∨ b.category = none) :
    runCreate db b file = (400, db) := by
  rcases h with h | h | h | h <;> simp [runCreate, createStep, truthy, h]

/-- Witness for C7: a create request with no price field is rejected with
400 and an empty table stays empty. -/
theorem c7_create_missing_required_field_witness :
    runCreate []
      { name := some "Mug", slug := some "mug-1", description := none, price := none,
        category := some "kitchen", stock := none, imageUrl := none } none = (400, []) :=
  c7_create_missing_required_field []
    { name := some "Mug", slug := some "mug-1", description := none, price := none,
      category := some "kitchen", stock := none, imageUrl := none } none
    (Or.inr (Or.inr (Or.inl rfl)))

/-- C10: the update handler has no validation branch — it never produces a
400 validation outcome, and for an existing row it overwrites every stored
field from the request body regardless of the prior values, except the
image reference: absent description is stored as null, absent or
non-numeric stock as 0, and the prior row enters the result only through
its stored image reference. -/
theorem c10_update_overwrites_without_validation (prior : Option ProductRow)
    (b : RequestBody) (file : Option String) :
    (∀ m : String, updateStep prior b file ≠ UpdateOutcome.badRequest m) ∧
    (∀ p : ProductRow, prior = some p →
      updateStep prior b file = UpdateOutcome.updated (updateRowFn b file p)) ∧
    (∀ p : ProductRow,
      (updateRowFn b file p).name = b.name ∧
      (updateRowFn b file p).slug = b.slug ∧
      (updateRowFn b file p).description = jsOrNull b.description ∧
      (updateRowFn b file p).price = jsParseFloatO b.price ∧
      (updateRowFn b file p).category = b.category ∧
      (updateRowFn b file p).stock = jsParseIntOr0 b.stock) ∧
    (b.description = none → ∀ p : ProductRow, (updateRowFn b file p).description = none) ∧
    ((b.stock = none ∨ jsParseInt b.stock = none) →
      ∀ p : ProductRow, (updateRowFn b file p).stock = 0) ∧
    (∀ p q : ProductRow, p.imageUrl = q.imageUrl →
      updateRowFn b file p = updateRowFn b file q) := by
  refine ⟨?_, ?_, ?_, ?_, ?_, ?_⟩
  · intro m hm
    cases prior <;> simp [updateStep] at hm
  · intro p hp
    subst hp
    rfl
  · intro p
    exact ⟨rfl, rfl, rfl, rfl, rfl, rfl⟩
  · intro hd p
    simp [updateRowFn, jsOrNull, hd]
  · intro hs p
    rcases hs with hs | hs
    · simp [updateRowFn, jsParseIntOr0, jsParseInt, hs]
    · simp [updateRowFn, jsParseIntOr0, hs]
  · intro p q hpq
    simp [updateRowFn, hpq]

/-- Witness for C10: an update with a non-numeric stock string stores
stock 0, whatever stock the prior row had. -/
theorem c10_update_overwrites_without_validation_witness :
    (updateRowFn
      { name := some "Mug", slug := some "mug-1", description := none, price := some "9.99",
        category := some "kitchen", stock := some "abc", imageUrl := none } none
      { name := some "Old", slug := some "old", description := none, price := none,
        category := some "misc", stock := 7, imageUrl := some "/uploads/old.png" }).stock = 0 :=
  (c10_update_overwrites_without_validation
    (some { name := some "Old", slug := some "old", description := none, price := none,
            category := some "misc", stock := 7, imageUrl := some "/uploads/old.png" })
    { name := some "Mug", slug := some "mug-1", description := none, price := some "9.99",
      category := some "kitchen", stock := some "abc", imageUrl := none }
    none).2.2.2.2.1 (Or.inr (by decide))
    { name := some "Old", slug := some "old", description := none, price := none,
      category := some "misc", stock := 7, imageUrl := some "/uploads/old.png" }

lemma likeMatch_nil (s : List Char) : likeMatch [] s = s.isEmpty := by
  rw [likeMatch.eq_def]

lemma likeMatch_percent_nil (ps : List Char) : likeMatch ('%' :: ps) [] = likeMatch ps [] := by
  rw [likeMatch.eq_def]
  simp

lemma likeMatch_percent_cons (ps : List Char) (c : Char) (s2 : List Char) :
    likeMatch ('%' :: ps) (c :: s2) = (likeMatch ps (c :: s2) || likeMatch ('%' :: ps) s2) := by
  rw [likeMatch.eq_def]
  simp

lemma likeMatch_lit_nil (p1 : Char) (ps : List Char) (h1 : p1 ≠ '%') :
    likeMatch (p1 :: ps) [] = false := by
  rw [likeMatch.eq_def]
  simp [h1]

lemma likeMatch_lit_cons (p1 : Char) (ps : List Char) (c : Char) (s2 : List Char)
    (h1 : p1 ≠ '%') (h2 : p1 ≠ '_') :
    likeMatch (p1 :: ps) (c :: s2) = if p1 = c then likeMatch ps s2 else false := by
  rw [likeMatch.eq_def]
  simp [h1, h2]

lemma likeMatch_percent_iff (ps s : List Char) :
    likeMatch ('%' :: ps) s = true ↔ ∃ n, likeMatch ps (s.drop n) = true := by
  induction s with
  | nil =>
    rw [likeMatch_percent_nil]
    constructor
    · exact fun h => ⟨0, h⟩
    · rintro ⟨n, h⟩
      simpa using h
  | cons c s2 ih =>
    rw [likeMatch_percent_cons, Bool.or_eq_true, ih]
    constructor
    · rintro (h | ⟨n, h⟩)
      · exact ⟨0, h⟩
      · exact ⟨n + 1, by simpa using h⟩
    · rintro ⟨n, h⟩
      cases n with
      | zero => exact Or.inl (by simpa using h)
      | succ n => exact Or.inr ⟨n, by simpa using h⟩

lemma likeMatch_single_percent (s : List Char) : likeMatch ['%'] s = true := by
  induction s with
  | nil =>
    rw [likeMatch_percent_nil, likeMatch_nil]
    rfl
  | cons c s2 ih =>
    rw [likeMatch_percent_cons, ih]
    simp

lemma likeMatch_append_iff (t : List Char) (ps s : List Char)
    (ht : ∀ c ∈ t, c ≠ '%' ∧ c ≠ '_') :
    likeMatch (t ++ ps) s = true ↔ ∃ s2, s = t ++ s2 ∧ likeMatch ps s2 = true := by
  revert ht
  induction t generalizing s with
  | nil =>
    intro ht
    simp
  | cons a t2 ih =>
    intro ht
    have ha := ht a (List.mem_cons_self a t2)
    rw [List.cons_append]
    cases s with
    | nil =>
      rw [likeMatch_lit_nil a _ ha.1]
      simp
    | cons c s3 =>
      rw [likeMatch_lit_cons a _ c s3 ha.1 ha.2]
      by_cases hac : a = c
      · subst hac
        rw [if_pos rfl, ih s3 (fun c2 hc => ht c2 (List.mem_cons_of_mem a hc))]
        simp [List.cons_append]
      · rw [if_neg hac]
        simp [List.cons_append, Ne.symm hac]

lemma likeMatch_wrapped_iff (t w : List Char) (ht : ∀ c ∈ t, c ≠ '%' ∧ c ≠ '_') :
    likeMatch ('%' :: (t ++ ['%'])) w = true ↔ ∃ l r, w = l ++ t ++ r := by
  rw [likeMatch_percent_iff]
  constructor
  · rintro ⟨n, hn⟩
    rw [likeMatch_append_iff t ['%'] _ ht] at hn
    obtain ⟨s2, hs2, _⟩ := hn
    refine ⟨w.take n, s2, ?_⟩
    conv_lhs => rw [← List.take_append_drop n w]
    rw [hs2, List.append_assoc]
  · rintro ⟨l, r, rfl⟩
    refine ⟨l.length, ?_⟩
    rw [likeMatch_append_iff t ['%'] _ ht]
    refine ⟨r, ?_, likeMatch_single_percent r⟩
    rw [List.append_assoc, List.drop_left]

lemma truthy_some_of_ne (s : String) (h : s ≠ "") : truthy (some s) = true := by
  simp [truthy, h]

lemma specClauses_map_fst (search category minPrice maxPrice : Option String) :
    (specClauses search category minPrice maxPrice).map Prod.fst =
      (if truthy search then ["(name LIKE ? OR description LIKE ?)"] else []) ++
      (if truthy category then ["category = ?"] else []) ++
      (if truthy minPrice then ["price >= ?"] else []) ++
      (if truthy maxPrice then ["price <= ?"] else []) := by
  cases hs : truthy search <;> cases hc : truthy category <;>
    cases hm : truthy minPrice <;> cases hM : truthy maxPrice <;>
      simp [specClauses, hs, hc, hm, hM]

/-- C8: for a non-empty search parameter the first predicate clause is
`name LIKE ? OR description LIKE ?` with the wildcard-wrapped term bound
twice; the query texts are identical for every search value (the term is
only ever bound, never concatenated into the SQL); and under the modelled
case-insensitive LIKE evaluation the bound `%term%` pattern matches a
value exactly when the term is a case-insensitive substring of it
(for wildcard-free terms). -/
theorem c8_search_predicate (s : String) (hs : s ≠ "")
    (category minPrice maxPrice : Option String) :
    (specClauses (some s) category minPrice maxPrice).head? =
      some ("(name LIKE ? OR description LIKE ?)",
        [SqlParam.str ("%" ++ s ++ "%"), SqlParam.str ("%" ++ s ++ "%")]) ∧
    (∀ t : String, t ≠ "" →
      (buildListQuery (some t) category minPrice maxPrice).query =
        (buildListQuery (some s) category minPrice maxPrice).query ∧
      (buildListQuery (some t) category minPrice maxPrice).countQuery =
        (buildListQuery (some s) category minPrice maxPrice).countQuery) ∧
    (∀ v : String, (∀ c ∈ s.data.map Char.toLower, c ≠ '%' ∧ c ≠ '_') →
      (sqlLikeCI v ("%" ++ s ++ "%") = true ↔
        ∃ l r, v.data.map Char.toLower = l ++ s.data.map Char.toLower ++ r)) := by
  refine ⟨?_, ?_, ?_⟩
  · simp [specClauses, truthy, hs]
  · intro t ht
    have i1 := buildListQuery_inv (some t) category minPrice maxPrice
    have i2 := buildListQuery_inv (some s) category minPrice maxPrice
    rw [i1.1, i2.1, i1.2.1, i2.2.1, specClauses_map_fst, specClauses_map_fst,
      truthy_some_of_ne t ht, truthy_some_of_ne s hs]
    exact ⟨rfl, rfl⟩
  · intro v hwf
    unfold sqlLikeCI
    have hpc : Char.toLower '%' = '%' := by decide
    have hd : ("%" ++ s ++ "%").data.map Char.toLower =
        '%' :: (s.data.map Char.toLower ++ ['%']) := by
      simp [String.data_append, hpc]
    rw [hd]
    exact likeMatch_wrapped_iff (s.data.map Char.toLower) (v.data.map Char.toLower) hwf

/-- Witness for C8: the wildcard-wrapped pattern for the term `Laptop`
matches the differently cased value `Gaming Laptop Pro`. -/
theorem c8_search_predicate_witness :
    sqlLikeCI "Gaming Laptop Pro" ("%" ++ "Laptop" ++ "%") = true :=
  ((c8_search_predicate "Laptop" (by decide) none none none).2.2 "Gaming Laptop Pro"
    (by decide)).mpr ⟨"gaming ".data, " pro".data, by decide⟩

end ProductApi
